import Mathlib

/-!
Verification of `django_sharding_library/models.py`.

The file is embedded shallowly:

* `settings.DATABASES` is a finite association list from database alias to a
  `DBConfig`.  A Python dict value under a key may be absent, or present and
  `None`, or present and a string; each config field therefore has type
  `Option (Option String)` (outer layer: key presence, inner layer: the
  Python value, `none` standing for Python `None`).
* `dict.get(key, None)` collapses the outer layer with default `none`;
  Python truthiness of the resulting value is `pyTruthy`.
* Python's `sorted` on strings is `List.insertionSort (· ≤ ·)` with the
  lexicographic order on `String`.
* `obj._state.db` (the connection bound to a model instance) is an
  `Option String` (`none` = Python `None` = unbound; `some ""` is a bound but
  falsy value, which `save` and `bulk_create` treat differently).
* Exceptions (`KeyError` from `kwargs["using"]`, integrity errors from the
  database) are `Except` error outcomes.
-/

/-- The two settings keys of one entry of `settings.DATABASES` that
`models.py` reads.  Outer `Option`: is the key present in the dict at all;
inner `Option String`: the stored Python value (`none` = Python `None`). -/
structure DBConfig where
  PRIMARY : Option (Option String)
  SHARD_GROUP : Option (Option String)
deriving DecidableEq

/-- Python truthiness of a value that is either `None` or a string:
`None` and `""` are falsy, any non-empty string is truthy. -/
def pyTruthy : Option String → Bool
  | none => false
  | some s => s != ""

/-- `settings.DATABASES[db].get('PRIMARY', None)`. -/
def DBConfig.getPrimary (c : DBConfig) : Option String :=
  c.PRIMARY.getD none

/-- `settings.DATABASES[db].get('SHARD_GROUP', None)`. -/
def DBConfig.getShardGroup (c : DBConfig) : Option String :=
  c.SHARD_GROUP.getD none

/-- The filter lambda of `_get_primary_shards`:
`not settings.DATABASES[db].get('PRIMARY', None) and settings.DATABASES[db].get('SHARD_GROUP', None)`. -/
def isPrimaryShard (c : DBConfig) : Bool :=
  !pyTruthy c.getPrimary && pyTruthy c.getShardGroup

/-- The lexicographic order on `String`, decided via the character list so that
concrete instances evaluate. -/
def decStringLE : @DecidableRel String (· ≤ ·) := fun s₁ s₂ =>
  decidable_of_iff (s₁.toList ≤ s₂.toList) String.le_iff_toList_le.symm

/-- `_get_primary_shards()`: sorted(filter(lambda db: ..., settings.DATABASES.keys())).
A Python dict has distinct keys, so filtering the `(key, value)` pairs and
projecting to the key is the same as filtering the keys through a lookup. -/
def _get_primary_shards (databases : List (String × DBConfig)) : List String :=
  @List.insertionSort String (· ≤ ·) decStringLE
    ((databases.filter fun db => isPrimaryShard db.2).map Prod.fst)

/-- A two-group configuration: `a` is a primary shard of group `g`,
`b` a primary shard of group `h`. -/
def cfgTwoGroups : List (String × DBConfig) :=
  [("a", ⟨none, some (some "g")⟩), ("b", ⟨none, some (some "h")⟩)]

/-- The spec scenario configuration
`{A: {shardGroup: "g"}, B: {primary: A, shardGroup: "g"}, C: {shardGroup: "g"}}`. -/
def cfgABC : List (String × DBConfig) :=
  [("A", ⟨none, some (some "g")⟩),
   ("B", ⟨some (some "A"), some (some "g")⟩),
   ("C", ⟨none, some (some "g")⟩)]

/-- The predicate the spec states for primary candidacy: the `primary` key is
absent and the `shardGroup` key is present — key presence, not truthiness. -/
def specPrimaryCandidate (c : DBConfig) : Prop :=
  c.PRIMARY = none ∧ c.SHARD_GROUP.isSome

/-- A Python generator object: the list of items computed when the generator
expression was created (a generator expression evaluates its outermost
iterable eagerly at creation), and how many of them have been consumed. -/
structure PyGenerator where
  items : List (String × String)
  pos : Nat
deriving DecidableEq

/-- `SHARD_CHOICES = ((i, i) for i in _get_primary_shards())` as written in the
class bodies of `ShardedByMixin` and `ShardStorageModel`: `_get_primary_shards()`
runs once, when the class body is evaluated, against the configuration current
at that moment; the generator starts unconsumed. -/
def SHARD_CHOICES (databases : List (String × DBConfig)) : PyGenerator :=
  ⟨(_get_primary_shards databases).map fun i => (i, i), 0⟩

/-- Iterating a Python generator to the end: it yields the items not yet
consumed and is exhausted afterwards. -/
def PyGenerator.enumerate (g : PyGenerator) : List (String × String) × PyGenerator :=
  (g.items.drop g.pos, ⟨g.items, g.items.length⟩)

/-- One row of a `TableStrategyModel` counter table:
`id = BigAutoField(primary_key=True)` and
`stub = models.NullBooleanField(null=True, default=True, unique=True)`. -/
structure CounterRow where
  id : Nat
  stub : Option Bool
deriving DecidableEq

/-- The visible state of one counter table: its rows together with the
auto-increment counter backing the `id` column. -/
structure CounterState where
  rows : List CounterRow
  next_id : Nat
deriving DecidableEq

/-- An empty counter table whose auto-increment counter starts at 1. -/
def CounterState.init : CounterState := ⟨[], 1⟩

/-- The transitions the counter table admits. An insert writes only the
sentinel `stub = True` (the column default; nothing else is ever written) and
is admitted only when no row with that non-null stub value exists — the
`unique=True` constraint on `stub`, which in SQL never fires on NULLs.
A delete (the caller's cleanup protocol) removes one existing row. -/
inductive CounterStep : CounterState → CounterState → Prop where
  | insert (s : CounterState) (h : ∀ r ∈ s.rows, r.stub ≠ some true) :
      CounterStep s ⟨s.rows ++ [⟨s.next_id, some true⟩], s.next_id + 1⟩
  | delete (s : CounterState) (r : CounterRow) (h : r ∈ s.rows) :
      CounterStep s ⟨s.rows.erase r, s.next_id⟩

/-- States a counter table can reach from empty by admitted inserts and
deletes (a rejected insert leaves the state unchanged). -/
def CounterReachable (s : CounterState) : Prop :=
  Relation.ReflTransGen CounterStep CounterState.init s

/-- The error outcomes of the shard mapping store. -/
inductive StoreError where
  | duplicateKey
  | notFound
deriving DecidableEq

/-- Modelled from the spec: `recordMapping(shardKey, shard)` of the Shard
Mapping Store. The repository declares only the `ShardStorageModel` schema —
`shard_key = models.CharField(primary_key=True, ...)` — while the insert
itself is framework code outside this repository. A primary-key column means
an insert whose key is already present fails with a duplicate-key error;
otherwise the pair is stored. The store is an association list keyed by
`shard_key`. -/
def recordMapping (store : List (String × String)) (k s : String) :
    Except StoreError (List (String × String)) :=
  if (store.lookup k).isSome then .error .duplicateKey
  else .ok ((k, s) :: store)

/-- Modelled from the spec: `lookupShard(shardKey)` of the Shard Mapping
Store — return the stored shard for the key, or NotFound when the key has no
mapping. -/
def lookupShard (store : List (String × String)) (k : String) :
    Except StoreError String :=
  match store.lookup k with
  | some s => .ok s
  | none => .error .notFound

/-- The `KeyError` Python raises on `kwargs["using"]` when the kwarg is
absent. -/
inductive SaveError where
  | keyError
deriving DecidableEq

/-- `ShardLookupBaseModel.save(self, **kwargs)`:
`if not self._state.db: self._state.db = kwargs["using"]` then delegate to
`super().save(**kwargs)`. The result is the connection bound to the instance
when the delegated save runs; `kwargsUsing = none` means no `using` kwarg was
passed, in which case `kwargs["using"]` raises `KeyError`. -/
def ShardLookupBaseModel.save (db : Option String) (kwargsUsing : Option String) :
    Except SaveError (Option String) :=
  if !pyTruthy db then
    match kwargsUsing with
    | none => .error .keyError
    | some u => .ok (some u)
  else
    .ok db

/-- The observable outcome of `ShardLookupQuerySet.bulk_create`: the
connections bound to the entities after the binding pass, and the sequence the
single delegated `super().bulk_create(objs, batch_size)` call receives.
Python mutates the objects in place and hands the same list to the delegated
call, so the two components coincide by construction. -/
structure BulkCreateCall where
  objs : List (Option String)
  inserted : List (Option String)
deriving DecidableEq

/-- `ShardLookupQuerySet.bulk_create(self, objs, batch_size=None)`:
`for obj in objs: if obj._state.db is None: obj._state.db = self._db` and then
one delegated `super().bulk_create(objs, batch_size)` over the whole list.
`selfDb` is `self._db` (the connection set by `.using(db)`, `None` when the
queryset was never pinned). Note the test is `is None`, not falsiness. -/
def ShardLookupQuerySet.bulk_create (selfDb : Option String)
    (objs : List (Option String)) : BulkCreateCall :=
  let bound := objs.map fun db => if db = none then selfDb else db
  ⟨bound, bound⟩

/-- Python truthiness of a `None`-or-string value, characterized: truthy
exactly for a non-empty string. -/
theorem pyTruthy_eq_true_iff (v : Option String) :
    pyTruthy v = true ↔ ∃ s, v = some s ∧ s ≠ "" := by
  cases v with
  | none => simp [pyTruthy]
  | some s => simp [pyTruthy]

/-- Python truthiness of a `None`-or-string value, characterized: falsy
exactly for `None` and the empty string. -/
theorem pyTruthy_eq_false_iff (v : Option String) :
    pyTruthy v = false ↔ v = none ∨ v = some "" := by
  cases v with
  | none => simp [pyTruthy]
  | some s => simp [pyTruthy]

/-- C1 counterexample: `_get_primary_shards` takes no group argument and
filters on nothing but truthiness of `PRIMARY` and `SHARD_GROUP`, so on a
configuration whose primary shards sit in two different groups it returns
both of them; whichever group tag the claim's "requested group" is taken to
be, the returned sequence contains a shard whose group is the other one, so
the sequence is not "exactly the shards whose shardGroup matches the
requested tag". -/
theorem C1_counterexample :
    _get_primary_shards cfgTwoGroups = ["a", "b"] ∧
    (cfgTwoGroups.lookup "a").map DBConfig.getShardGroup = some (some "g") ∧
    (cfgTwoGroups.lookup "b").map DBConfig.getShardGroup = some (some "h") := by
  decide

/-- C1 (amended): for every configuration, `_get_primary_shards` returns a
lexicographically sorted sequence containing exactly the shard names whose
`PRIMARY` value is falsy and whose `SHARD_GROUP` value is truthy — across
all shard groups, since the function takes no group argument. -/
theorem C1_sorted_exactly_primaries (databases : List (String × DBConfig)) :
    List.Sorted (· ≤ ·) (_get_primary_shards databases) ∧
    ∀ a, (a ∈ _get_primary_shards databases ↔
      ∃ c, (a, c) ∈ databases ∧ isPrimaryShard c = true) := by
  constructor
  · exact @List.sorted_insertionSort String (· ≤ ·) decStringLE _ _ _
  · intro a
    unfold _get_primary_shards
    rw [(@List.perm_insertionSort String (· ≤ ·) decStringLE _).mem_iff]
    simp only [List.mem_map, List.mem_filter]
    constructor
    · rintro ⟨⟨n, c⟩, ⟨hmem, hp⟩, rfl⟩
      exact ⟨c, hmem, hp⟩
    · rintro ⟨c, hmem, hp⟩
      exact ⟨(a, c), ⟨hmem, hp⟩, rfl⟩

/-- C7 counterexample: candidacy is decided by truthiness, not key presence.
A shard whose `PRIMARY` key is present with value `None` is classified as a
primary candidate by the code, while the claim's absent/present rule excludes
it; a shard whose `SHARD_GROUP` key is present but empty is excluded by the
code, while the claim's rule admits it. -/
theorem C7_counterexample :
    isPrimaryShard ⟨some none, some (some "g")⟩ = true ∧
    ¬ specPrimaryCandidate ⟨some none, some (some "g")⟩ ∧
    isPrimaryShard ⟨none, some (some "")⟩ = false ∧
    specPrimaryCandidate ⟨none, some (some "")⟩ := by
  refine ⟨by decide, ?_, by decide, ?_⟩
  · intro h
    exact Option.noConfusion h.1
  · exact ⟨rfl, rfl⟩

/-- C7 (amended): a shard configuration entry is classified as a primary
candidate iff its `PRIMARY` value is falsy (key absent, value `None`, or
empty string) and its `SHARD_GROUP` value is truthy (key present with a
non-`None`, non-empty string): truthiness of the values, not key presence,
decides candidacy. -/
theorem C7_candidacy_by_truthiness (c : DBConfig) :
    isPrimaryShard c = true ↔
      ((c.PRIMARY = none ∨ c.PRIMARY = some none ∨ c.PRIMARY = some (some "")) ∧
       ∃ s, c.SHARD_GROUP = some (some s) ∧ s ≠ "") := by
  obtain ⟨p, g⟩ := c
  simp only [isPrimaryShard, DBConfig.getPrimary, DBConfig.getShardGroup,
    Bool.and_eq_true, Bool.not_eq_true', pyTruthy_eq_false_iff, pyTruthy_eq_true_iff]
  rcases p with _ | p <;> rcases g with _ | v <;> simp

/-- C8: on the spec's scenario configuration
`{A: {shardGroup: "g"}, B: {primary: A, shardGroup: "g"}, C: {shardGroup: "g"}}`
— all three shards in group `g`, `B` a replica of `A` — resolution returns
exactly `[A, C]`, with `B` excluded. -/
theorem C8_scenario_returns_A_C :
    _get_primary_shards cfgABC = ["A", "C"] ∧
    (cfgABC.lookup "A").map DBConfig.getShardGroup = some (some "g") ∧
    (cfgABC.lookup "B").map DBConfig.getShardGroup = some (some "g") ∧
    (cfgABC.lookup "C").map DBConfig.getShardGroup = some (some "g") ∧
    (cfgABC.lookup "B").map DBConfig.getPrimary = some (some "A") := by
  decide

/-- The binding pass of `bulk_create` leaves a list untouched when the
queryset has no pinned connection (`self._db is None`): rebinding an unbound
entity to `None` changes nothing. -/
theorem map_bind_none_id (objs : List (Option String)) :
    (objs.map fun db => if db = none then (none : Option String) else db) = objs := by
  induction objs with
  | nil => rfl
  | cons x xs ih => cases x <;> simp [ih]

/-- C2 counterexample: `bulk_create` called on a queryset with no pinned
connection (`self._db = None`) and a single unbound entity does not fail —
it silently proceeds, issuing the delegated batched insert over the entity
with its connection still unbound, contradicting the claim that the
operation fails synchronously with a MissingTarget error. (The function has
no error outcome at all; contrast `ShardLookupBaseModel.save`, whose missing
`using` kwarg raises `KeyError`.) -/
theorem C2_counterexample :
    ShardLookupQuerySet.bulk_create none [none] = ⟨[none], [none]⟩ := by
  decide

/-- C2 (amended): `save` on an entity with no truthy bound connection and no
`using` kwarg fails synchronously with a `KeyError` (the `MissingTarget`
outcome); `bulk_create` with no pinned target connection, however, does not
fail — it proceeds, handing the delegated batched insert the input sequence
with every unbound entity still unbound. -/
theorem C2_save_raises_bulk_proceeds (db : Option String)
    (hdb : pyTruthy db = false) (objs : List (Option String)) :
    ShardLookupBaseModel.save db none = .error .keyError ∧
    ShardLookupQuerySet.bulk_create none objs = ⟨objs, objs⟩ := by
  constructor
  · simp [ShardLookupBaseModel.save, hdb]
  · simp [ShardLookupQuerySet.bulk_create, map_bind_none_id]

/-- C2 witness: the amended statement at `db = None`,
`objs = [None, "x"]`. -/
theorem C2_save_raises_bulk_proceeds_witness :
    ShardLookupBaseModel.save none none = .error .keyError ∧
    ShardLookupQuerySet.bulk_create none [none, some "x"] =
      ⟨[none, some "x"], [none, some "x"]⟩ :=
  C2_save_raises_bulk_proceeds none (by decide) [none, some "x"]

/-- C3: `bulk_create` binds the pinned target connection to exactly the
entities whose connection is unbound (`None`), leaves every bound entity's
connection unchanged, and the single delegated batched insert receives the
whole sequence with those bindings already applied (the binding pass runs
before the delegated call and the sequence lengths match). -/
theorem C3_bulk_binds_before_insert (selfDb : Option String)
    (objs : List (Option String)) :
    ((ShardLookupQuerySet.bulk_create selfDb objs).inserted =
      (ShardLookupQuerySet.bulk_create selfDb objs).objs) ∧
    ((ShardLookupQuerySet.bulk_create selfDb objs).inserted.length = objs.length) ∧
    (∀ i : Nat, objs[i]? = some none →
      ((ShardLookupQuerySet.bulk_create selfDb objs).objs)[i]? = some selfDb) ∧
    (∀ (i : Nat) (c : String), objs[i]? = some (some c) →
      ((ShardLookupQuerySet.bulk_create selfDb objs).objs)[i]? = some (some c)) := by
  refine ⟨rfl, by simp [ShardLookupQuerySet.bulk_create], ?_, ?_⟩
  · intro i hi
    simp [ShardLookupQuerySet.bulk_create, List.getElem?_map, hi]
  · intro i c hi
    simp [ShardLookupQuerySet.bulk_create, List.getElem?_map, hi]

/-- C3 witness: the spec's example with `e1` bound to `connX` and `e2`, `e3`
unbound — after the call `e1` keeps `connX` and `e2`, `e3` are bound to the
target, and the batched insert sees the whole bound sequence. -/
theorem C3_bulk_binds_before_insert_witness :
    ((ShardLookupQuerySet.bulk_create (some "conn")
        [some "connX", none, none]).inserted =
      (ShardLookupQuerySet.bulk_create (some "conn")
        [some "connX", none, none]).objs) ∧
    (((ShardLookupQuerySet.bulk_create (some "conn")
        [some "connX", none, none]).objs)[1]? = some (some "conn")) ∧
    (((ShardLookupQuerySet.bulk_create (some "conn")
        [some "connX", none, none]).objs)[0]? = some (some "connX")) :=
  ⟨(C3_bulk_binds_before_insert (some "conn") [some "connX", none, none]).1,
   (C3_bulk_binds_before_insert (some "conn") [some "connX", none, none]).2.2.1
     1 (by decide),
   (C3_bulk_binds_before_insert (some "conn") [some "connX", none, none]).2.2.2
     0 "connX" (by decide)⟩

/-- C4: `save` binds the supplied target connection only when the entity has
no truthy connection bound; when one is bound, the call leaves the binding
untouched (first-bind-wins). -/
theorem C4_save_first_bind_wins (db : Option String) (u : String) :
    (pyTruthy db = true → ShardLookupBaseModel.save db (some u) = .ok db) ∧
    (pyTruthy db = false → ShardLookupBaseModel.save db (some u) = .ok (some u)) := by
  constructor <;> intro h <;> simp [ShardLookupBaseModel.save, h]

/-- C4 witness: a bound entity keeps its connection `"c"`; an unbound entity
is bound to the supplied `"d"`. -/
theorem C4_save_first_bind_wins_witness :
    ShardLookupBaseModel.save (some "c") (some "d") = .ok (some "c") ∧
    ShardLookupBaseModel.save none (some "d") = .ok (some "d") :=
  ⟨(C4_save_first_bind_wins (some "c") "d").1 (by decide),
   (C4_save_first_bind_wins none "d").2 (by decide)⟩

/-- C10: `save` and `bulk_create` test unboundness differently — `save` uses
Python falsiness (`if not self._state.db`), so any falsy binding, the empty
string included, is rebound to the supplied target; `bulk_create` tests
`is None`, so it rebinds only an exactly-`None` connection. For an entity
bound to the empty string, `save` overwrites the binding and `bulk_create`
leaves it unchanged. -/
theorem C10_unbound_tests_differ :
    (∀ (db : Option String) (u : String), pyTruthy db = false →
      ShardLookupBaseModel.save db (some u) = .ok (some u)) ∧
    (∀ selfDb db : Option String, db ≠ none →
      (ShardLookupQuerySet.bulk_create selfDb [db]).objs = [db]) ∧
    (∀ selfDb : Option String,
      (ShardLookupQuerySet.bulk_create selfDb [none]).objs = [selfDb]) ∧
    (∀ u : String, ShardLookupBaseModel.save (some "") (some u) = .ok (some u)) ∧
    (∀ selfDb : Option String,
      (ShardLookupQuerySet.bulk_create selfDb [some ""]).objs = [some ""]) := by
  refine ⟨?_, ?_, ?_, ?_, ?_⟩
  · intro db u h
    simp [ShardLookupBaseModel.save, h]
  · intro selfDb db h
    simp [ShardLookupQuerySet.bulk_create, h]
  · intro selfDb
    simp [ShardLookupQuerySet.bulk_create]
  · intro u
    simp [ShardLookupBaseModel.save, pyTruthy]
  · intro selfDb
    simp [ShardLookupQuerySet.bulk_create]

/-- C10 witness: with the binding `""` and target `"conn"`, `save` overwrites
to `"conn"` while `bulk_create` keeps `""`. -/
theorem C10_unbound_tests_differ_witness :
    ShardLookupBaseModel.save (some "") (some "conn") = .ok (some "conn") ∧
    (ShardLookupQuerySet.bulk_create (some "conn") [some ""]).objs = [some ""] :=
  ⟨C10_unbound_tests_differ.1 (some "") "conn" (by decide),
   C10_unbound_tests_differ.2.2.2.2 (some "conn")⟩

/-- Invariant of reachable counter-table states: every row carries the
sentinel `stub = True` (nothing else is ever written), and there is at most
one row (an insert is admitted only into a table with no sentinel row, i.e.
an empty one). -/
theorem counter_rows_inv (s : CounterState) (h : CounterReachable s) :
    (∀ r ∈ s.rows, r.stub = some true) ∧ s.rows.length ≤ 1 := by
  induction h with
  | refl =>
    refine ⟨?_, ?_⟩ <;> simp [CounterState.init]
  | @tail b c hab hbc ih =>
    cases hbc with
    | insert hins =>
      have hempty : b.rows = [] := by
        cases hrows : b.rows with
        | nil => rfl
        | cons r rs =>
          exact absurd (ih.1 r (by rw [hrows]; exact List.mem_cons_self r rs))
            (hins r (by rw [hrows]; exact List.mem_cons_self r rs))
      constructor
      · intro r hr
        rw [hempty] at hr
        simp at hr
        simp [hr]
      · rw [hempty]
        simp
    | delete r hmem =>
      exact ⟨fun r2 hr2 => ih.1 r2 (List.mem_of_mem_erase hr2),
        le_trans (List.Sublist.length_le (List.erase_sublist r b.rows)) ih.2⟩

/-- C5: with only the sentinel `True` ever written to the unique `stub`
column, every counter-table state reachable by admitted inserts and caller
deletes holds at most one physical row. -/
theorem C5_counter_at_most_one_row (s : CounterState) (h : CounterReachable s) :
    s.rows.length ≤ 1 :=
  (counter_rows_inv s h).2

/-- The counter table after one successful insert into the empty table. -/
def counterAfterInsert : CounterState := ⟨[⟨1, some true⟩], 2⟩

/-- C5 witness: the state after one successful insert is reachable and has at
most one row. -/
theorem C5_counter_at_most_one_row_witness :
    CounterReachable counterAfterInsert ∧ counterAfterInsert.rows.length ≤ 1 := by
  have hstep : CounterStep CounterState.init counterAfterInsert :=
    CounterStep.insert CounterState.init
      (by intro r hr; exact absurd hr (List.not_mem_nil r))
  have hreach : CounterReachable counterAfterInsert :=
    Relation.ReflTransGen.single hstep
  exact ⟨hreach, C5_counter_at_most_one_row counterAfterInsert hreach⟩

/-- A configuration with a single primary shard `a` in group `g`. -/
def cfgOneShard : List (String × DBConfig) := [("a", ⟨none, some (some "g")⟩)]

/-- C6 counterexample: `SHARD_CHOICES` is a generator expression, so the
choice set is computed once, when the class body runs, and the generator is
single-use — the first enumeration yields the full choice sequence and a
second enumeration of the same choices object yields the empty sequence, not
the same full sequence again. -/
theorem C6_counterexample :
    (SHARD_CHOICES cfgOneShard).enumerate.1 = [("a", "a")] ∧
    ((SHARD_CHOICES cfgOneShard).enumerate.2).enumerate.1 = [] := by
  decide

/-- C6 (amended): the choice set is computed from the configuration once, at
generator creation (class-body evaluation), not at each enumeration; the
resulting generator yields the full choice sequence on its first enumeration
and the empty sequence on any further one. -/
theorem C6_choices_computed_once (databases : List (String × DBConfig)) :
    (SHARD_CHOICES databases).enumerate.1 =
      (_get_primary_shards databases).map (fun i => (i, i)) ∧
    ((SHARD_CHOICES databases).enumerate.2).enumerate.1 = [] := by
  constructor
  · simp [SHARD_CHOICES, PyGenerator.enumerate]
  · simp [SHARD_CHOICES, PyGenerator.enumerate]

/-- C9: after a successful `recordMapping k s`, `lookupShard k` returns `s`
and a second `recordMapping k s2` fails with DuplicateKey for every `s2`
(write-once, enforced by `shard_key` being the primary key); looking up any
unmapped key yields NotFound. -/
theorem C9_mapping_write_once (store store2 : List (String × String))
    (k s : String) (h : recordMapping store k s = .ok store2) :
    lookupShard store2 k = .ok s ∧
    (∀ s2, recordMapping store2 k s2 = .error .duplicateKey) ∧
    (∀ (st : List (String × String)) (k2 : String),
      st.lookup k2 = none → lookupShard st k2 = .error .notFound) := by
  by_cases hk : (store.lookup k).isSome = true
  · simp [recordMapping, hk] at h
  · unfold recordMapping at h
    rw [if_neg hk] at h
    injection h with h
    subst h
    refine ⟨?_, ?_, ?_⟩
    · simp [lookupShard, List.lookup]
    · intro s2
      simp [recordMapping, List.lookup]
    · intro st k2 h2
      simp [lookupShard, h2]

/-- C9 witness: recording `("k", "s1")` into the empty store, then looking it
up, re-recording under the same key, and probing an unmapped key. -/
theorem C9_mapping_write_once_witness :
    lookupShard [("k", "s1")] "k" = .ok "s1" ∧
    recordMapping [("k", "s1")] "k" "s2" = .error .duplicateKey ∧
    lookupShard ([] : List (String × String)) "q" = .error .notFound := by
  have h := C9_mapping_write_once [] [("k", "s1")] "k" "s1" rfl
  exact ⟨h.1, h.2.1 "s2", h.2.2 [] "q" rfl⟩
